import Mathlib

/-!
Shallow embedding of the event-sourcing derivation engine of the
Sonechka.OS repository (`src/AppStateManager.ts`, `src/types.ts`).

The repository ships two textual variants of `AppStateManager.ts`;
the embedding below follows the full variant (the one with step
dependency gating, the workout/development ritual catalogs and the
anchor logic), which is the variant the specification describes.

Modelling conventions:
* ISO-8601 timestamps are modelled as `Int` milliseconds since the
  epoch; the JavaScript `setDate(getDate() + n)` day arithmetic is
  modelled as adding `n * 86400000` ms (timezone/DST-free days).
* Glucose values (JS `number`) are modelled as `ℚ`; every literal in
  the source (4.2, 6.0, multipliers) is exactly representable.
* JS `Record<string, T>` objects (keyed by the `id` field, iterated in
  insertion order) are modelled as `List T` with lookup by `id`; the
  JS pattern "find the entry and mutate it" is `updateFirst`.
* The localized date label `today` is abstracted to the epoch-day
  index `now / 86400000` (a pure function of `now`, which is all any
  claim uses about it).
-/

namespace Sonechka

inductive RiskLevel
  | low
  | medium
  | high
deriving DecidableEq

inductive GlucoseStatus
  | low
  | optimal
  | high
  | unknown
deriving DecidableEq

inductive DropType
  | systane
  | emoxipin
  | midramax
deriving DecidableEq

/-- A ritual step (`RitualState.steps` element in `types.ts`).
`dependencies` is `none` when the source object literal omits the
field, mirroring the TS optional field. -/
structure Step where
  id : String
  name : String
  completed : Bool
  dependencies : Option (List String) := none
deriving DecidableEq

/-- Structure `RitualState` from `types.ts`; the workout rituals additionally
carry inert `trainer`/`duration` data. -/
structure Ritual where
  id : String
  name : String
  completed : Bool
  steps : List Step
  dependencies : Option (List String) := none
  trainer : Option String := none
  duration : Option Int := none
deriving DecidableEq

/-- Structure `PlantProfile` from `types.ts` (`baseInterval = (minDays, maxDays)`). -/
structure PlantProfile where
  baseInterval : Int × Int
  winterMultiplier : ℚ
  humidityMultiplier : Option ℚ := none
  criticality : Int
deriving DecidableEq

/-- Structure `PlantState` from `types.ts`. -/
structure Plant where
  id : String
  name : String
  profile : PlantProfile
  lastWatered : Option Int := none
  nextDue : Int
  riskLevel : RiskLevel
  isWinter : Bool
deriving DecidableEq

structure Glucose where
  last : Option (ℚ × Int)
  status : GlucoseStatus
deriving DecidableEq

/-- The `developmentCounters` object of `deriveState`. -/
structure DevCounters where
  lecture : Nat
  practical : Nat
  zoo : Nat
  fiction_ru : Nat
  words : Nat
  soap : Nat
deriving DecidableEq

/-- The `workTracking` object of `deriveState`. -/
structure WorkTracking where
  emailChecks : Nat
  weekendMarked : Bool
deriving DecidableEq

structure Anchors where
  selfcare : Option String
  plants : Option String
  health : Option String
deriving DecidableEq

/-- The `Event` tagged union from `types.ts`. -/
inductive Event
  | app_init (ts : Int)
  | ritual_step_completed (ts : Int) (ritualId stepId : String)
  | med_taken (ts : Int) (medId : String) (dose : Option ℚ)
  | eye_drop_applied (ts : Int) (dropType : DropType)
  | watering_done (ts : Int) (plantId : String)
  | glucose_measured (ts : Int) (value : ℚ)
  | plant_profile_updated (ts : Int) (plantId : String) (profile : PlantProfile)
  | focus_lost (ts : Int)
  | backup_created (ts : Int) (path : String)
deriving DecidableEq

/-- The mutable state threaded through the event loop of `deriveState`. -/
structure FoldState where
  rituals : List Ritual
  plants : List Plant
  glucose : Glucose
  development : DevCounters
  work : WorkTracking
deriving DecidableEq

/-- The engine's output (`DerivedState` from `types.ts`, plus the
`development`/`work` tallies the full variant returns). -/
structure DerivedState where
  today : Int
  rituals : List Ritual
  plants : List Plant
  glucose : Glucose
  anchors : Anchors
  overdueCount : Int
  development : DevCounters
  work : WorkTracking
deriving DecidableEq

/-- JS pattern `const x = list.find(p); if (x) mutate(x)`: replace the
first element satisfying `p` by its image under `f`. -/
def updateFirst (p : α → Bool) (f : α → α) : List α → List α
  | [] => []
  | x :: xs => if p x then f x :: xs else x :: updateFirst p f xs

def msPerHour : Int := 3600000

def msPerDay : Int := 86400000

/-- Set `step.completed = true` on the first step with the given id
(`steps.find(s => s.id === stepId)` followed by mutation). -/
def setStepCompleted (sid : String) (steps : List Step) : List Step :=
  updateFirst (fun s => s.id == sid) (fun s => { s with completed := true }) steps

/-- The eye-drop aliasing write: complete one step of one ritual
without recomputing the ritual's `completed` flag. -/
def completeAliasStep (rid sid : String) (rs : List Ritual) : List Ritual :=
  updateFirst (fun r => r.id == rid)
    (fun r => { r with steps := setStepCompleted sid r.steps }) rs

/-- One dependency id of a step: satisfied iff it names a sibling step
that is completed, else a ritual that is completed, else (unknown id)
trivially satisfied — the fail-open policy. -/
def depSatisfied (rs : List Ritual) (r : Ritual) (depId : String) : Bool :=
  match r.steps.find? (fun s => s.id == depId) with
  | some depStep => depStep.completed
  | none =>
    match rs.find? (fun rr => rr.id == depId) with
    | some depRitual => depRitual.completed
    | none => true

/-- The `dependenciesMet` computation of the `ritual_step_completed` handler; a step
without a `dependencies` field is trivially unlocked. -/
def dependenciesMet (rs : List Ritual) (r : Ritual) (st : Step) : Bool :=
  match st.dependencies with
  | none => true
  | some ds => ds.all (depSatisfied rs r)

/-- The `ritual_step_completed` case of the event loop: locate ritual
and step; if the step's dependencies are met, complete it and
recompute the ritual's `completed` flag as the AND over its steps;
otherwise (or if ritual/step is unknown) do nothing. -/
def applyRitualStep (rs : List Ritual) (rid sid : String) : List Ritual :=
  match rs.find? (fun r => r.id == rid) with
  | none => rs
  | some r =>
    match r.steps.find? (fun s => s.id == sid) with
    | none => rs
    | some st =>
      if dependenciesMet rs r st then
        updateFirst (fun rr => rr.id == rid)
          (fun rr =>
            let newSteps := setStepCompleted sid rr.steps
            { rr with steps := newSteps,
                      completed := newSteps.all (fun s => s.completed) }) rs
      else rs

/-- The `eye_drop_applied` case: the systane drop fans out to the
morning ritual and the `w1d5e`/`w1d6g` workout rituals; emoxipin and
midramax each complete one evening-ritual step. -/
def applyEyeDrop (dt : DropType) (rs : List Ritual) : List Ritual :=
  match dt with
  | .systane =>
      completeAliasStep "w1d6g" "w1d6g_eye_drops"
        (completeAliasStep "w1d5e" "w1d5e_eye_drops"
          (completeAliasStep "ritual_morning_prep" "eye_drops_systane" rs))
  | .emoxipin => completeAliasStep "ritual_evening_prep" "eye_emoxipin_4" rs
  | .midramax => completeAliasStep "ritual_evening_prep" "eye_midramax" rs

/-- Risk classification of the `watering_done` handler:
`timeDiffHours > 12 → low`, `> 0 → medium`, else `high`
(stated on milliseconds, which the JS hour division preserves). -/
def riskOf (nextDue now : Int) : RiskLevel :=
  let timeDiff := nextDue - now
  if timeDiff > 12 * msPerHour then .low
  else if timeDiff > 0 then .medium
  else .high

/-- The `watering_done` case: for a known plant set `lastWatered`,
recompute `nextDue = ts + minDays` (minimum of `baseInterval`; the
maximum bound and the multipliers are not folded in) and reclassify
risk against `now`. Unknown plant ids are a no-op. -/
def applyWatering (ps : List Plant) (pid : String) (ts now : Int) : List Plant :=
  updateFirst (fun p => p.id == pid)
    (fun p =>
      let nextDue := ts + p.profile.baseInterval.1 * msPerDay
      { p with lastWatered := some ts,
               nextDue := nextDue,
               riskLevel := riskOf nextDue now }) ps

/-- The `glucose_measured` classification chain of the event loop. -/
def classifyGlucose (v : ℚ) : GlucoseStatus :=
  if v < mkRat 42 10 then .low
  else if v ≤ mkRat 6 1 then .optimal
  else .high

/-- The development/work tally switch that runs on every
`ritual_step_completed` event, keyed on the step id alone. -/
def bumpCounters (dev : DevCounters) (work : WorkTracking) (sid : String) :
    DevCounters × WorkTracking :=
  if sid == "lecture_done" then ({ dev with lecture := dev.lecture + 1 }, work)
  else if sid == "practical_done" then ({ dev with practical := dev.practical + 1 }, work)
  else if sid == "zoo_done" then ({ dev with zoo := dev.zoo + 1 }, work)
  else if sid == "fiction_ru_done" then ({ dev with fiction_ru := dev.fiction_ru + 1 }, work)
  else if sid == "words_learned" then ({ dev with words := dev.words + 1 }, work)
  else if sid == "soap_session" then ({ dev with soap := dev.soap + 1 }, work)
  else if sid == "work_email_check_1" || sid == "work_email_check_2" then
    (dev, { work with emailChecks := work.emailChecks + 1 })
  else if sid == "work_weekend_mark" then
    (dev, { work with weekendMarked := true })
  else (dev, work)

/-- One iteration of the `for (const event of this.state.events)` loop. -/
def applyEvent (now : Int) (s : FoldState) (e : Event) : FoldState :=
  match e with
  | .ritual_step_completed _ rid sid =>
      let dw := bumpCounters s.development s.work sid
      { s with rituals := applyRitualStep s.rituals rid sid,
               development := dw.1, work := dw.2 }
  | .med_taken _ _ _ => s
  | .eye_drop_applied _ dt => { s with rituals := applyEyeDrop dt s.rituals }
  | .watering_done ts pid => { s with plants := applyWatering s.plants pid ts now }
  | .glucose_measured ts v =>
      { s with glucose := { last := some (v, ts), status := classifyGlucose v } }
  | .plant_profile_updated _ pid prof =>
      { s with plants :=
          updateFirst (fun p => p.id == pid) (fun p => { p with profile := prof }) s.plants }
  | .app_init _ => s
  | .focus_lost _ => s
  | .backup_created _ _ => s

/-- The base ritual catalog of `deriveState` (`rituals` object
literal), in insertion order. -/
def baseRituals : List Ritual := [
  { id := "ritual_morning_prep", name := "Утренняя подготовка", completed := false,
    steps := [
      { id := "eye_drops_systane", name := "Капли Систейн", completed := false },
      { id := "estraderm_morning", name := "Эстрожель (утро)", completed := false },
      { id := "med_fortedertrim", name := "Фортедер.trim", completed := false },
      { id := "med_folic", name := "Фолиевая кислота", completed := false },
      { id := "med_mg_1", name := "Магний", completed := false }
    ] },
  { id := "ritual_lunch_prep", name := "Обеденная подготовка", completed := false,
    steps := [
      { id := "meal_breakfast", name := "Завтрак", completed := false, dependencies := some [] },
      { id := "med_ki_1", name := "Йод", completed := false, dependencies := some ["meal_breakfast"] },
      { id := "med_mg_2", name := "Магний", completed := false, dependencies := some ["meal_breakfast"] },
      { id := "med_stimol_2", name := "Стимол", completed := false, dependencies := some ["meal_breakfast"] },
      { id := "med_omega3", name := "Омега-3", completed := false, dependencies := some ["meal_breakfast"] }
    ],
    dependencies := some ["meal_breakfast"] },
  { id := "ritual_evening_prep", name := "Вечерняя подготовка", completed := false,
    steps := [
      { id := "meal_dinner", name := "Ужин", completed := false, dependencies := some [] },
      { id := "eye_emoxipin_4", name := "Капли Эмоксипин", completed := false, dependencies := some ["meal_dinner"] },
      -- >=15 min after eye drops
      { id := "med_ki_2", name := "Йод", completed := false, dependencies := some ["meal_dinner", "eye_emoxipin_4"] },
      { id := "med_mg_3", name := "Магний", completed := false, dependencies := some ["meal_dinner"] },
      { id := "med_stimol_3", name := "Стимол", completed := false, dependencies := some ["meal_dinner"] },
      { id := "eye_midramax", name := "Капли Мидрамакс", completed := false, dependencies := some ["meal_dinner"] },
      { id := "estraderm_evening", name := "Эстрожель (вечер)", completed := false, dependencies := some ["meal_dinner"] }
    ],
    dependencies := some ["meal_dinner"] },
  { id := "ritual_skin_care_morning", name := "Утренний уход за кожей", completed := false,
    steps := [
      { id := "skincare_step_1", name := "Очищение", completed := false, dependencies := some ["estraderm_morning", "eye_drops_systane"] },
      { id := "skincare_step_2", name := "Тоник", completed := false, dependencies := some ["skincare_step_1"] },
      { id := "skincare_step_3", name := "Сыворотка", completed := false, dependencies := some ["skincare_step_2"] },
      { id := "skincare_step_4", name := "Крем", completed := false, dependencies := some ["skincare_step_3"] }
    ],
    dependencies := some ["estraderm_morning", "eye_drops_systane"] },
  { id := "ritual_makeup", name := "Макияж", completed := false,
    steps := [
      { id := "makeup_primer", name := "База под макияж", completed := false, dependencies := some ["ritual_skin_care_morning"] },
      { id := "makeup_foundation", name := "Тональный крем", completed := false, dependencies := some ["makeup_primer"] },
      { id := "makeup_blush", name := "Румяна", completed := false, dependencies := some ["makeup_foundation"] },
      { id := "makeup_eyes", name := "Макияж глаз", completed := false, dependencies := some ["makeup_foundation"] },
      { id := "makeup_lips", name := "Помада", completed := false, dependencies := some ["makeup_eyes"] }
    ],
    dependencies := some ["ritual_skin_care_morning"] },
  { id := "ritual_dental", name := "Чистка зубов", completed := false,
    steps := [
      { id := "dental_brush", name := "Чистка зубов", completed := false },
      { id := "dental_floss", name := "Зубная нить", completed := false },
      { id := "dental_mouthwash", name := "Ополаскиватель", completed := false }
    ] },
  { id := "ritual_evening_care", name := "Вечерний уход", completed := false,
    steps := [
      { id := "evening_skincare_step_1", name := "Очищение", completed := false, dependencies := some ["eye_midramax"] },
      { id := "evening_skincare_step_2", name := "Тоник", completed := false, dependencies := some ["evening_skincare_step_1"] },
      { id := "evening_skincare_step_3", name := "Сыворотка", completed := false, dependencies := some ["evening_skincare_step_2"] },
      { id := "evening_skincare_step_4", name := "Ночной крем", completed := false, dependencies := some ["evening_skincare_step_3"] }
    ],
    dependencies := some ["eye_midramax"] }
]

/-- The `workoutRituals` object literal, in insertion order. -/
def workoutRituals : List Ritual := [
  { id := "w1d3m", name := "Танцы антистресс", completed := false,
    trainer := some "Илана Сухорукова", duration := some 20,
    steps := [{ id := "w1d3m_start", name := "Начать тренировку", completed := false }] },
  { id := "w1d4m", name := "Зарядки без коврика", completed := false,
    trainer := some "Иванна Идуш", duration := some 8,
    steps := [{ id := "w1d4m_start", name := "Начать тренировку", completed := false }] },
  { id := "w1d4d", name := "Секси денс", completed := false,
    trainer := some "Маша Мерикка", duration := some 20,
    steps := [{ id := "w1d4d_start", name := "Начать тренировку", completed := false }] },
  { id := "w1d5e", name := "ВЕЧЕР Зарядки для лица", completed := false,
    trainer := some "Иванна Идуш", duration := some 10,
    steps := [
      { id := "w1d5e_eye_drops", name := "Капли Систейн", completed := false },
      { id := "w1d5e_start", name := "Начать тренировку", completed := false, dependencies := some ["w1d5e_eye_drops"] }
    ] },
  { id := "w1d6e", name := "ДЕНЬ Работа с гиперлордозом", completed := false,
    trainer := some "Кристина Вершинина", duration := some 30,
    steps := [
      { id := "w1d6e_glucose_check", name := "Проверить глюкозу ≥ 4.5", completed := false },
      { id := "w1d6e_start", name := "Начать тренировку", completed := false, dependencies := some ["w1d6e_glucose_check"] }
    ] },
  { id := "w1d6g", name := "ВЕЧЕР Фейсфитнес", completed := false,
    trainer := some "Иванна Идуш", duration := some 25,
    steps := [
      { id := "w1d6g_eye_drops", name := "Капли Систейн", completed := false },
      { id := "w1d6g_glucose_check", name := "Проверить глюкозу ≥ 4.5", completed := false },
      { id := "w1d6g_start", name := "Начать тренировку", completed := false, dependencies := some ["w1d6g_eye_drops", "w1d6g_glucose_check"] }
    ] },
  { id := "w2d1e", name := "ДЕНЬ Functional Core", completed := false,
    trainer := some "Елизавета Прокудина", duration := some 30,
    steps := [
      { id := "w2d1e_check_weights", name := "Проверить гантели 0.75 кг", completed := false },
      { id := "w2d1e_start", name := "Начать тренировку", completed := false, dependencies := some ["w2d1e_check_weights"] }
    ] },
  { id := "w2d2e", name := "ДЕНЬ Йога для здоровой спины", completed := false,
    trainer := some "Лера Буры", duration := some 20,
    steps := [
      { id := "w2d2e_glucose_check", name := "Проверить глюкозу ≥ 4.5", completed := false },
      { id := "w2d2e_start", name := "Начать тренировку", completed := false, dependencies := some ["w2d2e_glucose_check"] }
    ] },
  { id := "w2d3m", name := "ДЕНЬ Упражнения на осанку", completed := false,
    trainer := some "Иванна Идуш", duration := some 15,
    steps := [
      { id := "w2d3m_glucose_check", name := "Проверить глюкозу ≥ 4.5", completed := false },
      { id := "w2d3m_start", name := "Начать тренировку", completed := false, dependencies := some ["w2d3m_glucose_check"] }
    ] },
  { id := "w2d4m", name := "ВЕЧЕР Танцы для похудения", completed := false,
    trainer := some "Илана Сухорукова", duration := some 25,
    steps := [{ id := "w2d4m_start", name := "Начать тренировку", completed := false }] },
  { id := "w2d5e", name := "ДЕНЬ Пресс + ягодицы", completed := false,
    trainer := some "Маша Мерикка", duration := some 20,
    steps := [{ id := "w2d5e_start", name := "Начать тренировку", completed := false }] },
  { id := "w2d6e", name := "ВЕЧЕР Тренировка на баланс", completed := false,
    trainer := some "Иванна Идуш", duration := some 18,
    steps := [{ id := "w2d6e_start", name := "Начать тренировку", completed := false }] },
  { id := "w2d6g", name := "ДЕНЬ Мягкая йога", completed := false,
    trainer := some "Лера Буры", duration := some 25,
    steps := [{ id := "w2d6g_start", name := "Начать тренировку", completed := false }] },
  { id := "w3d1e", name := "ВЕЧЕР Упражнения для спины", completed := false,
    trainer := some "Кристина Вершинина", duration := some 20,
    steps := [
      { id := "w3d1e_glucose_check", name := "Проверить глюкозу ≥ 4.5", completed := false },
      { id := "w3d1e_start", name := "Начать тренировку", completed := false, dependencies := some ["w3d1e_glucose_check"] }
    ] },
  { id := "w3d2e", name := "ДЕНЬ Танцы с элементами силовой", completed := false,
    trainer := some "Маша Мерикка", duration := some 30,
    steps := [{ id := "w3d2e_start", name := "Начать тренировку", completed := false }] },
  { id := "w3d3m", name := "ВЕЧЕР Упражнения для шеи", completed := false,
    trainer := some "Иванна Идуш", duration := some 12,
    steps := [
      { id := "w3d3m_glucose_check", name := "Проверить глюкозу ≥ 4.5", completed := false },
      { id := "w3d3m_start", name := "Начать тренировку", completed := false, dependencies := some ["w3d3m_glucose_check"] }
    ] },
  { id := "w3d4m", name := "ДЕНЬ Кардио тренировка", completed := false,
    trainer := some "Илана Сухорукова", duration := some 22,
    steps := [{ id := "w3d4m_start", name := "Начать тренировку", completed := false }] },
  { id := "w3d5e", name := "ВЕЧЕР Растяжка", completed := false,
    trainer := some "Лера Буры", duration := some 15,
    steps := [{ id := "w3d5e_start", name := "Начать тренировку", completed := false }] },
  { id := "w3d6e", name := "ДЕНЬ Фейсфитнес", completed := false,
    trainer := some "Иванна Идуш", duration := some 18,
    steps := [
      { id := "w3d6e_eye_drops", name := "Капли Систейн", completed := false },
      { id := "w3d6e_start", name := "Начать тренировку", completed := false, dependencies := some ["w3d6e_eye_drops"] }
    ] },
  { id := "w3d6g", name := "ВЕЧЕР Танцы антистресс", completed := false,
    trainer := some "Илана Сухорукова", duration := some 20,
    steps := [{ id := "w3d6g_start", name := "Начать тренировку", completed := false }] },
  { id := "w4d1e", name := "ДЕНЬ Силовая тренировка", completed := false,
    trainer := some "Маша Мерикка", duration := some 35,
    steps := [
      { id := "w4d1e_check_weights", name := "Проверить гантели 0.75 кг", completed := false },
      { id := "w4d1e_start", name := "Начать тренировку", completed := false, dependencies := some ["w4d1e_check_weights"] }
    ] },
  { id := "w4d2e", name := "ВЕЧЕР Упражнения для похудения", completed := false,
    trainer := some "Иванна Идуш", duration := some 25,
    steps := [{ id := "w4d2e_start", name := "Начать тренировку", completed := false }] },
  { id := "w4d3m", name := "ДЕНЬ Йога для гибкости", completed := false,
    trainer := some "Лера Буры", duration := some 30,
    steps := [{ id := "w4d3m_start", name := "Начать тренировку", completed := false }] },
  { id := "w4d4m", name := "ВЕЧЕР Упражнения на осанку", completed := false,
    trainer := some "Кристина Вершинина", duration := some 15,
    steps := [
      { id := "w4d4m_glucose_check", name := "Проверить глюкозу ≥ 4.5", completed := false },
      { id := "w4d4m_start", name := "Начать тренировку", completed := false, dependencies := some ["w4d4m_glucose_check"] }
    ] },
  { id := "w4d5e", name := "ДЕНЬ Танцы для тонуса", completed := false,
    trainer := some "Илана Сухорукова", duration := some 20,
    steps := [{ id := "w4d5e_start", name := "Начать тренировку", completed := false }] },
  { id := "w4d6e", name := "ВЕЧЕР Пресс и ягодицы", completed := false,
    trainer := some "Маша Мерикка", duration := some 18,
    steps := [{ id := "w4d6e_start", name := "Начать тренировку", completed := false }] },
  { id := "w4d6g", name := "ДЕНЬ Медитация и дыхание", completed := false,
    trainer := some "Иванна Идуш", duration := some 15,
    steps := [{ id := "w4d6g_start", name := "Начать тренировку", completed := false }] },
  { id := "w5d1e", name := "ВЕЧЕР Йога для расслабления", completed := false,
    trainer := some "Лера Буры", duration := some 25,
    steps := [{ id := "w5d1e_start", name := "Начать тренировку", completed := false }] },
  { id := "w5d2e", name := "ДЕНЬ Кардио и силовые", completed := false,
    trainer := some "Илана Сухорукова", duration := some 30,
    steps := [{ id := "w5d2e_start", name := "Начать тренировку", completed := false }] },
  { id := "w5d3m", name := "ВЕЧЕР Упражнения для спины", completed := false,
    trainer := some "Кристина Вершинина", duration := some 20,
    steps := [
      { id := "w5d3m_glucose_check", name := "Проверить глюкозу ≥ 4.5", completed := false },
      { id := "w5d3m_start", name := "Начать тренировку", completed := false, dependencies := some ["w5d3m_glucose_check"] }
    ] },
  { id := "w5d4m", name := "ДЕНЬ Танцы для тела", completed := false,
    trainer := some "Маша Мерикка", duration := some 25,
    steps := [{ id := "w5d4m_start", name := "Начать тренировку", completed := false }] },
  { id := "w5d5e", name := "ВЕЧЕР Растяжка и расслабление", completed := false,
    trainer := some "Иванна Идуш", duration := some 20,
    steps := [{ id := "w5d5e_start", name := "Начать тренировку", completed := false }] },
  { id := "w5d6e", name := "ДЕНЬ Фейсфитнес", completed := false,
    trainer := some "Иванна Идуш", duration := some 18,
    steps := [
      { id := "w5d6e_eye_drops", name := "Капли Систейн", completed := false },
      { id := "w5d6e_start", name := "Начать тренировку", completed := false, dependencies := some ["w5d6e_eye_drops"] }
    ] },
  { id := "w5d6g", name := "ВЕЧЕР Тренировка на баланс", completed := false,
    trainer := some "Лера Буры", duration := some 18,
    steps := [{ id := "w5d6g_start", name := "Начать тренировку", completed := false }] },
  { id := "w6d1e", name := "ДЕНЬ Силовая тренировка", completed := false,
    trainer := some "Маша Мерикка", duration := some 35,
    steps := [
      { id := "w6d1e_check_weights", name := "Проверить гантели 0.75 кг", completed := false },
      { id := "w6d1e_start", name := "Начать тренировку", completed := false, dependencies := some ["w6d1e_check_weights"] }
    ] },
  { id := "w6d2e", name := "ВЕЧЕР Упражнения для похудения", completed := false,
    trainer := some "Иванна Идуш", duration := some 25,
    steps := [{ id := "w6d2e_start", name := "Начать тренировку", completed := false }] },
  { id := "w6d3m", name := "ДЕНЬ Йога для гибкости", completed := false,
    trainer := some "Лера Буры", duration := some 30,
    steps := [{ id := "w6d3m_start", name := "Начать тренировку", completed := false }] },
  { id := "w6d4m", name := "ВЕЧЕР Упражнения на осанку", completed := false,
    trainer := some "Кристина Вершинина", duration := some 15,
    steps := [
      { id := "w6d4m_glucose_check", name := "Проверить глюкозу ≥ 4.5", completed := false },
      { id := "w6d4m_start", name := "Начать тренировку", completed := false, dependencies := some ["w6d4m_glucose_check"] }
    ] },
  { id := "w6d5e", name := "ДЕНЬ Танцы для тонуса", completed := false,
    trainer := some "Илана Сухорукова", duration := some 20,
    steps := [{ id := "w6d5e_start", name := "Начать тренировку", completed := false }] },
  { id := "w6d6e", name := "ВЕЧЕР Пресс и ягодицы", completed := false,
    trainer := some "Маша Мерикка", duration := some 18,
    steps := [{ id := "w6d6e_start", name := "Начать тренировку", completed := false }] },
  { id := "w6d6g", name := "ДЕНЬ Медитация и дыхание", completed := false,
    trainer := some "Иванна Идуш", duration := some 15,
    steps := [{ id := "w6d6g_start", name := "Начать тренировку", completed := false }] },
  { id := "w7d4h", name := "ВЕЧЕР Зарядки для лица", completed := false,
    trainer := some "Иванна Идуш", duration := some 10,
    steps := [
      { id := "w7d4h_eye_drops", name := "Капли Систейн", completed := false },
      { id := "w7d4h_start", name := "Начать тренировку", completed := false, dependencies := some ["w7d4h_eye_drops"] }
    ] }
]

/-- The `developmentRituals` object literal, in insertion order. -/
def developmentRituals : List Ritual := [
  { id := "lecture", name := "Лекция", completed := false,
    steps := [{ id := "lecture_done", name := "Посмотреть лекцию", completed := false }],
    dependencies := some [] },
  { id := "practical", name := "Практика", completed := false,
    steps := [{ id := "practical_done", name := "Выполнить практику", completed := false }],
    dependencies := some [] },
  { id := "zoo", name := "Зоопсихология", completed := false,
    steps := [{ id := "zoo_done", name := "Занятие по зоопсихологии", completed := false }],
    dependencies := some [] },
  { id := "fiction_ru", name := "Худ. литература", completed := false,
    steps := [{ id := "fiction_ru_done", name := "Прочитать главу", completed := false }],
    dependencies := some [] },
  { id := "words", name := "Англ. слова", completed := false,
    steps := [{ id := "words_learned", name := "Выучить 10 слов", completed := false }],
    dependencies := some [] },
  { id := "soap", name := "Мыловарение", completed := false,
    steps := [{ id := "soap_session", name := "Сделать сессию", completed := false }],
    dependencies := some [] },
  -- Will be handled by business logic
  { id := "work_email", name := "Проверка почты", completed := false,
    steps := [
      { id := "work_email_check_1", name := "Первая проверка", completed := false },
      { id := "work_email_check_2", name := "Вторая проверка", completed := false }
    ],
    dependencies := some [] },
  { id := "work_weekend", name := "Отметка выходного", completed := false,
    steps := [{ id := "work_weekend_mark", name := "Отметить выходной", completed := false }],
    dependencies := some [] }
]

/-- The full ritual catalog as assembled by `Object.assign`:
base rituals, then workout rituals, then development rituals. -/
def ritualCatalog : List Ritual := baseRituals ++ workoutRituals ++ developmentRituals

/-- The plant seed of `deriveState` (`plants` object literal); each
`nextDue` starts `minDays` from the pass's `now`. -/
def plantCatalog (now : Int) : List Plant := [
  { id := "plant_schefflera_gerda", name := "Шеффлера Герда",
    profile := { baseInterval := (7, 10), winterMultiplier := mkRat 13 10, criticality := 3 },
    nextDue := now + 7 * msPerDay, riskLevel := .low, isWinter := false },
  { id := "plant_schefflera_nora", name := "Шеффлера Нора",
    profile := { baseInterval := (8, 12), winterMultiplier := mkRat 13 10, criticality := 3 },
    nextDue := now + 8 * msPerDay, riskLevel := .low, isWinter := false },
  { id := "plant_ficus_elastica", name := "Фикус эластика",
    profile := { baseInterval := (10, 14), winterMultiplier := mkRat 12 10, criticality := 4 },
    nextDue := now + 10 * msPerDay, riskLevel := .low, isWinter := false },
  -- humidityMultiplier: reacts to humidity < 40%
  { id := "plant_monstera", name := "Монстера",
    profile := { baseInterval := (6, 9), winterMultiplier := mkRat 11 10,
                 humidityMultiplier := some (mkRat 8 10), criticality := 4 },
    nextDue := now + 6 * msPerDay, riskLevel := .low, isWinter := false },
  { id := "plant_nolina", name := "Нолина",
    profile := { baseInterval := (21, 28), winterMultiplier := mkRat 1 1, criticality := 1 },
    nextDue := now + 21 * msPerDay, riskLevel := .low, isWinter := false },
  { id := "plant_dracena", name := "Драцена",
    profile := { baseInterval := (7, 10), winterMultiplier := mkRat 13 10, criticality := 3 },
    nextDue := now + 7 * msPerDay, riskLevel := .low, isWinter := false },
  { id := "plant_peperomia", name := "Пеперомия",
    profile := { baseInterval := (10, 14), winterMultiplier := mkRat 12 10, criticality := 2 },
    nextDue := now + 10 * msPerDay, riskLevel := .low, isWinter := false },
  { id := "plant_yucca_big", name := "Юкка большая",
    profile := { baseInterval := (14, 21), winterMultiplier := mkRat 1 1, criticality := 1 },
    nextDue := now + 14 * msPerDay, riskLevel := .low, isWinter := false },
  { id := "plant_yucca_small", name := "Юкка маленькая",
    profile := { baseInterval := (14, 21), winterMultiplier := mkRat 1 1, criticality := 2 },
    nextDue := now + 14 * msPerDay, riskLevel := .low, isWinter := false },
  { id := "plant_philodendron", name := "Филодендрон",
    profile := { baseInterval := (5, 7), winterMultiplier := mkRat 1 1, criticality := 3 },
    nextDue := now + 5 * msPerDay, riskLevel := .low, isWinter := false },
  -- highest criticality
  { id := "plant_elka_conica", name := "Ель коника",
    profile := { baseInterval := (10, 14), winterMultiplier := mkRat 1 1, criticality := 5 },
    nextDue := now + 10 * msPerDay, riskLevel := .low, isWinter := false }
]

/-- The state every derivation pass starts from: fresh catalogs (all
steps uncompleted), glucose unknown, zero tallies. -/
def initState (now : Int) : FoldState :=
  { rituals := ritualCatalog
    plants := plantCatalog now
    glucose := { last := none, status := .unknown }
    development := { lecture := 0, practical := 0, zoo := 0, fiction_ru := 0, words := 0, soap := 0 }
    work := { emailChecks := 0, weekendMarked := false } }

/-- The event loop of `deriveState` as a left fold over the log. -/
def foldState (events : List Event) (now : Int) : FoldState :=
  events.foldl (applyEvent now) (initState now)

/-- The anchor-selection block at the end of `deriveState`:
glucose anchor when status is low, then first high-risk plant; then
the first incomplete morning step overwrites the health anchor, and a
medium-risk plant fills an empty plant anchor. -/
def computeAnchors (rituals : List Ritual) (plants : List Plant) (glucose : Glucose) :
    Anchors :=
  let health0 : Option String :=
    if glucose.last.isSome && decide (glucose.status = .low) then some "rest_teabreak" else none
  let plants0 : Option String :=
    (plants.find? (fun p => decide (p.riskLevel = .high))).map (fun p => p.id)
  let health1 : Option String :=
    match rituals.find? (fun r => r.id == "ritual_morning_prep") with
    | some r =>
      if !r.completed then
        match r.steps.find? (fun st => !st.completed) with
        | some st => some st.id
        | none => health0
      else health0
    | none => health0
  let plants1 : Option String :=
    match plants0 with
    | some p => some p
    | none => (plants.find? (fun p => decide (p.riskLevel = .medium))).map (fun p => p.id)
  { selfcare := none, plants := plants1, health := health1 }

/-- Function `deriveState`: the pure derivation of the output state from the
event log and the wall-clock instant `now`. -/
def deriveState (events : List Event) (now : Int) : DerivedState :=
  let s := foldState events now
  { today := now / msPerDay
    rituals := s.rituals
    plants := s.plants
    glucose := s.glucose
    anchors := computeAnchors s.rituals s.plants s.glucose
    overdueCount := ((s.plants.filter (fun p => decide (now > p.nextDue))).length : Int)
    development := s.development
    work := s.work }

/-! Observation helpers used to state the claims. -/

/-- The `completed` flag of the step with id `sid`, `false` when absent. -/
def stepDone (steps : List Step) (sid : String) : Bool :=
  match steps.find? (fun s => s.id == sid) with
  | some st => st.completed
  | none => false

/-- The `completed` flag of step `sid` of ritual `rid`, `false` when
ritual or step is absent. -/
def stepCompleted (rs : List Ritual) (rid sid : String) : Bool :=
  match rs.find? (fun r => r.id == rid) with
  | some r => stepDone r.steps sid
  | none => false

/-- Whether ritual `rid` exists and has a step with id `sid`. -/
def hasStep (rs : List Ritual) (rid sid : String) : Bool :=
  match rs.find? (fun r => r.id == rid) with
  | some r => (r.steps.find? (fun s => s.id == sid)).isSome
  | none => false

/-- The pair (current `completed` flag, `dependenciesMet`) of step `sid`
of ritual `rid`, `none` when ritual or step is absent. -/
def stepFlagAndDeps (rs : List Ritual) (rid sid : String) : Option (Bool × Bool) :=
  (rs.find? (fun r => r.id == rid)).bind (fun r =>
    (r.steps.find? (fun s => s.id == sid)).map (fun st =>
      (st.completed, dependenciesMet rs r st)))

/-- The reading carried by a `glucose_measured` event. -/
def glucoseReading : Event → Option (ℚ × Int)
  | .glucose_measured ts v => some (v, ts)
  | _ => none

/-- The most-recent-in-log glucose reading (the last `glucose_measured`
event of the list, scanning from the right). -/
def lastGlucoseReading : List Event → Option (ℚ × Int)
  | [] => none
  | e :: rest =>
    match lastGlucoseReading rest with
    | some r => some r
    | none => glucoseReading e

/-- The first-incomplete-step summary of the morning ritual:
`none` if the ritual is absent, `some none` if every step is
completed, `some (some sid)` if `sid` is its first incomplete step. -/
def firstPendingMorning (L : List Event) (now : Int) : Option (Option String) :=
  ((deriveState L now).rituals.find? (fun r => r.id == "ritual_morning_prep")).map
    (fun r => (r.steps.find? (fun st => !st.completed)).map (fun st => st.id))

/-- A step is "tagged as requiring systane drops" when it carries the
systane-drop label (the tag the catalog uses for every such step). -/
def taggedSystane (s : Step) : Bool := s.name == "Капли Систейн"

/-- Risk classification exactly as claim C4 words it: `high` if
`now > nextDue`, else `medium` if `nextDue - now ≤ 12h`, else `low`. -/
def claimRisk (nextDue now : Int) : RiskLevel :=
  if now > nextDue then .high
  else if nextDue - now ≤ 12 * msPerHour then .medium
  else .low

/-! Basic lemmas about `updateFirst` and keyed lookup. -/

theorem updateFirst_of_find?_none {p : α → Bool} {f : α → α} :
    ∀ {l : List α}, l.find? p = none → updateFirst p f l = l := by
  intro l
  induction l with
  | nil => intro _; rfl
  | cons x xs ih =>
    intro h
    cases hx : p x with
    | true => simp [List.find?_cons, hx] at h
    | false =>
      rw [List.find?_cons, hx] at h
      simp [updateFirst, hx, ih h]

theorem find?_updateFirst_same (key : α → String) (k : String) (f : α → α)
    (hf : ∀ x, key (f x) = key x) :
    ∀ l : List α,
      (updateFirst (fun x => key x == k) f l).find? (fun x => key x == k) =
        (l.find? (fun x => key x == k)).map f := by
  intro l
  induction l with
  | nil => rfl
  | cons x xs ih =>
    cases hx : key x == k with
    | true =>
      have hfx : (key (f x) == k) = true := by rw [hf]; exact hx
      simp [updateFirst, hx, List.find?_cons, hfx]
    | false =>
      have hfx : (key (f x) == k) = false := by rw [hf]; exact hx
      simp [updateFirst, hx, List.find?_cons, ih]

theorem find?_updateFirst_other (key : α → String) (k q : String) (f : α → α)
    (hf : ∀ x, key (f x) = key x) (hne : k ≠ q) :
    ∀ l : List α,
      (updateFirst (fun x => key x == k) f l).find? (fun x => key x == q) =
        l.find? (fun x => key x == q) := by
  intro l
  induction l with
  | nil => rfl
  | cons x xs ih =>
    cases hx : key x == k with
    | true =>
      have hxk : key x = k := by simpa using hx
      have hxq : (key x == q) = false := by simp [hxk]; exact hne
      have hfxq : (key (f x) == q) = false := by rw [hf]; exact hxq
      have hnone : xs.find? (fun x => key x == q) = xs.find? (fun x => key x == q) := rfl
      simp only [updateFirst, hx, if_true]
      rw [List.find?_cons, List.find?_cons]
      simp only [hxq, hfxq]
    | false =>
      simp only [updateFirst, hx]
      rw [if_neg (by simp [hx])]
      rw [List.find?_cons, List.find?_cons]
      cases hq : key x == q with
      | true => rfl
      | false => simpa using ih

theorem mem_updateFirst {p : α → Bool} {f : α → α} {l : List α} {x : α}
    (h : x ∈ updateFirst p f l) : x ∈ l ∨ ∃ a, a ∈ l ∧ x = f a := by
  induction l with
  | nil => simp [updateFirst] at h
  | cons y ys ih =>
    simp only [updateFirst] at h
    by_cases hy : p y = true
    · rw [if_pos hy] at h
      rcases List.mem_cons.mp h with h | h
      · exact Or.inr ⟨y, by simp, h⟩
      · exact Or.inl (by simp [h])
    · rw [if_neg hy] at h
      rcases List.mem_cons.mp h with h | h
      · exact Or.inl (by simp [h])
      · rcases ih h with h2 | ⟨a, ha, hx⟩
        · exact Or.inl (by simp [h2])
        · exact Or.inr ⟨a, by simp [ha], hx⟩

/-! Scrutinee-rewriting helpers for the observation functions. -/

theorem stepDone_eq_of_some {steps : List Step} {sid : String} {st : Step}
    (h : steps.find? (fun s => s.id == sid) = some st) :
    stepDone steps sid = st.completed := by
  unfold stepDone; rw [h]

theorem stepDone_eq_of_none {steps : List Step} {sid : String}
    (h : steps.find? (fun s => s.id == sid) = none) :
    stepDone steps sid = false := by
  unfold stepDone; rw [h]

theorem stepCompleted_eq_of_some {rs : List Ritual} {rid sid : String} {r : Ritual}
    (h : rs.find? (fun x => x.id == rid) = some r) :
    stepCompleted rs rid sid = stepDone r.steps sid := by
  unfold stepCompleted; rw [h]

theorem stepCompleted_eq_of_none {rs : List Ritual} {rid sid : String}
    (h : rs.find? (fun x => x.id == rid) = none) :
    stepCompleted rs rid sid = false := by
  unfold stepCompleted; rw [h]

theorem hasStep_eq_of_some {rs : List Ritual} {rid sid : String} {r : Ritual}
    (h : rs.find? (fun x => x.id == rid) = some r) :
    hasStep rs rid sid = (r.steps.find? (fun s => s.id == sid)).isSome := by
  unfold hasStep; rw [h]

theorem hasStep_eq_of_none {rs : List Ritual} {rid sid : String}
    (h : rs.find? (fun x => x.id == rid) = none) :
    hasStep rs rid sid = false := by
  unfold hasStep; rw [h]

/-! Lemmas about step completion under the update operations. -/

theorem stepDone_setStepCompleted_same (steps : List Step) (sid : String) :
    stepDone (setStepCompleted sid steps) sid =
      (steps.find? (fun s => s.id == sid)).isSome := by
  unfold stepDone setStepCompleted
  rw [find?_updateFirst_same (fun s : Step => s.id) sid
    (fun s : Step => { s with completed := true }) (fun _ => rfl)]
  cases steps.find? (fun s => s.id == sid) <;> rfl

theorem stepDone_setStepCompleted_other (steps : List Step) (sid sid' : String)
    (hne : sid ≠ sid') :
    stepDone (setStepCompleted sid steps) sid' = stepDone steps sid' := by
  unfold stepDone setStepCompleted
  rw [find?_updateFirst_other (fun s : Step => s.id) sid sid'
    (fun s : Step => { s with completed := true }) (fun _ => rfl) hne]

theorem isSome_find?_setStepCompleted (steps : List Step) (sid sid' : String) :
    ((setStepCompleted sid steps).find? (fun s => s.id == sid')).isSome =
      (steps.find? (fun s => s.id == sid')).isSome := by
  unfold setStepCompleted
  by_cases h : sid = sid'
  · subst h
    rw [find?_updateFirst_same (fun s : Step => s.id) sid
      (fun s : Step => { s with completed := true }) (fun _ => rfl)]
    cases steps.find? (fun s => s.id == sid) <;> rfl
  · rw [find?_updateFirst_other (fun s : Step => s.id) sid sid'
      (fun s : Step => { s with completed := true }) (fun _ => rfl) h]

theorem stepDone_setStepCompleted_mono (steps : List Step) (sid sid' : String)
    (h : stepDone steps sid' = true) :
    stepDone (setStepCompleted sid steps) sid' = true := by
  by_cases hss : sid = sid'
  · subst hss
    rw [stepDone_setStepCompleted_same]
    cases hf : steps.find? (fun s => s.id == sid) with
    | none => rw [stepDone_eq_of_none hf] at h; exact absurd h (by decide)
    | some st => rfl
  · rw [stepDone_setStepCompleted_other _ _ _ hss]; exact h

theorem all_setStepCompleted_mono (steps : List Step) (sid : String)
    (h : steps.all (fun s => s.completed) = true) :
    (setStepCompleted sid steps).all (fun s => s.completed) = true := by
  rw [List.all_eq_true] at h ⊢
  intro s hs
  rcases mem_updateFirst hs with hmem | ⟨a, ha, rfl⟩
  · exact h s hmem
  · simp

/-- Updates of the shape "complete one step of one ritual" (both the
gated `ritual_step_completed` write and the aliasing write): they
preserve every already-completed step flag. -/
theorem stepCompleted_updateSet_mono (rid sid : String) (f : Ritual → Ritual)
    (hid : ∀ r, (f r).id = r.id)
    (hsteps : ∀ r, (f r).steps = setStepCompleted sid r.steps)
    (rs : List Ritual) (rid' sid' : String)
    (h : stepCompleted rs rid' sid' = true) :
    stepCompleted (updateFirst (fun r => r.id == rid) f rs) rid' sid' = true := by
  by_cases hrr : rid = rid'
  · subst hrr
    unfold stepCompleted
    rw [find?_updateFirst_same (fun r : Ritual => r.id) rid f hid]
    cases hf : rs.find? (fun r => r.id == rid) with
    | none => rw [stepCompleted_eq_of_none hf] at h; exact absurd h (by decide)
    | some r =>
      rw [stepCompleted_eq_of_some hf] at h
      show stepDone (f r).steps sid' = true
      rw [hsteps]
      exact stepDone_setStepCompleted_mono _ _ _ h
  · unfold stepCompleted
    rw [find?_updateFirst_other (fun r : Ritual => r.id) rid rid' f hid hrr]
    exact h

/-- The same update shape sets the targeted step when it exists. -/
theorem stepCompleted_updateSet_same (rid sid : String) (f : Ritual → Ritual)
    (hid : ∀ r, (f r).id = r.id)
    (hsteps : ∀ r, (f r).steps = setStepCompleted sid r.steps)
    (rs : List Ritual) (h : hasStep rs rid sid = true) :
    stepCompleted (updateFirst (fun r => r.id == rid) f rs) rid sid = true := by
  unfold stepCompleted
  rw [find?_updateFirst_same (fun r : Ritual => r.id) rid f hid]
  cases hf : rs.find? (fun r => r.id == rid) with
  | none => rw [hasStep_eq_of_none hf] at h; exact absurd h (by decide)
  | some r =>
    rw [hasStep_eq_of_some hf] at h
    show stepDone (f r).steps sid = true
    rw [hsteps, stepDone_setStepCompleted_same]
    exact h

/-- An update keyed on a different ritual id leaves a step's
completion flag untouched. -/
theorem stepCompleted_updateFirst_other (rid : String) (f : Ritual → Ritual)
    (hid : ∀ r, (f r).id = r.id) (rs : List Ritual) (rid' sid' : String)
    (hne : rid ≠ rid') :
    stepCompleted (updateFirst (fun r => r.id == rid) f rs) rid' sid' =
      stepCompleted rs rid' sid' := by
  unfold stepCompleted
  rw [find?_updateFirst_other (fun r : Ritual => r.id) rid rid' f hid hne]

/-- Updates that preserve ritual ids and the id set of each ritual's
steps preserve `hasStep`. -/
theorem hasStep_updateFirst (rid0 : String) (f : Ritual → Ritual)
    (hid : ∀ r, (f r).id = r.id)
    (hstep : ∀ r sid, ((f r).steps.find? (fun s => s.id == sid)).isSome =
      (r.steps.find? (fun s => s.id == sid)).isSome)
    (rs : List Ritual) (rid sid : String) :
    hasStep (updateFirst (fun r => r.id == rid0) f rs) rid sid = hasStep rs rid sid := by
  unfold hasStep
  by_cases hrr : rid0 = rid
  · subst hrr
    rw [find?_updateFirst_same (fun r : Ritual => r.id) rid0 f hid]
    cases hf : rs.find? (fun r => r.id == rid0) with
    | none => rfl
    | some r =>
      show ((f r).steps.find? (fun s => s.id == sid)).isSome =
        (r.steps.find? (fun s => s.id == sid)).isSome
      exact hstep r sid
  · rw [find?_updateFirst_other (fun r : Ritual => r.id) rid0 rid f hid hrr]

theorem hasStep_completeAliasStep (rid0 sid0 : String) (rs : List Ritual)
    (rid sid : String) :
    hasStep (completeAliasStep rid0 sid0 rs) rid sid = hasStep rs rid sid := by
  unfold completeAliasStep
  exact hasStep_updateFirst rid0
    (fun r => { r with steps := setStepCompleted sid0 r.steps }) (fun _ => rfl)
    (fun r s => isSome_find?_setStepCompleted r.steps sid0 s) rs rid sid

theorem stepCompleted_completeAliasStep_mono (rid0 sid0 : String) (rs : List Ritual)
    (rid sid : String) (h : stepCompleted rs rid sid = true) :
    stepCompleted (completeAliasStep rid0 sid0 rs) rid sid = true :=
  stepCompleted_updateSet_mono rid0 sid0
    (fun r => { r with steps := setStepCompleted sid0 r.steps })
    (fun _ => rfl) (fun _ => rfl) rs rid sid h

theorem stepCompleted_completeAliasStep_same (rid0 sid0 : String) (rs : List Ritual)
    (h : hasStep rs rid0 sid0 = true) :
    stepCompleted (completeAliasStep rid0 sid0 rs) rid0 sid0 = true :=
  stepCompleted_updateSet_same rid0 sid0
    (fun r => { r with steps := setStepCompleted sid0 r.steps })
    (fun _ => rfl) (fun _ => rfl) rs h

theorem stepCompleted_completeAliasStep_other (rid0 sid0 : String) (rs : List Ritual)
    (rid sid : String) (hne : rid0 ≠ rid) :
    stepCompleted (completeAliasStep rid0 sid0 rs) rid sid = stepCompleted rs rid sid :=
  stepCompleted_updateFirst_other rid0
    (fun r => { r with steps := setStepCompleted sid0 r.steps })
    (fun _ => rfl) rs rid sid hne

/-! Lemmas about the gated `ritual_step_completed` update. -/

theorem applyRitualStep_eq (rs : List Ritual) (rid sid : String) (r : Ritual) (st : Step)
    (hr : rs.find? (fun x => x.id == rid) = some r)
    (hs : r.steps.find? (fun x => x.id == sid) = some st) :
    applyRitualStep rs rid sid =
      if dependenciesMet rs r st then
        updateFirst (fun rr => rr.id == rid)
          (fun rr =>
            let newSteps := setStepCompleted sid rr.steps
            { rr with steps := newSteps,
                      completed := newSteps.all (fun s => s.completed) }) rs
      else rs := by
  simp only [applyRitualStep, hr, hs]

theorem applyRitualStep_of_unmet (rs : List Ritual) (rid sid : String) (r : Ritual) (st : Step)
    (hr : rs.find? (fun x => x.id == rid) = some r)
    (hs : r.steps.find? (fun x => x.id == sid) = some st)
    (hdep : dependenciesMet rs r st = false) :
    applyRitualStep rs rid sid = rs := by
  rw [applyRitualStep_eq rs rid sid r st hr hs, hdep]
  simp

theorem applyRitualStep_of_met (rs : List Ritual) (rid sid : String) (r : Ritual) (st : Step)
    (hr : rs.find? (fun x => x.id == rid) = some r)
    (hs : r.steps.find? (fun x => x.id == sid) = some st)
    (hdep : dependenciesMet rs r st = true) :
    stepCompleted (applyRitualStep rs rid sid) rid sid = true := by
  rw [applyRitualStep_eq rs rid sid r st hr hs, hdep]
  simp only [if_true]
  apply stepCompleted_updateSet_same rid sid
    (fun rr =>
      let newSteps := setStepCompleted sid rr.steps
      { rr with steps := newSteps, completed := newSteps.all (fun s => s.completed) })
    (fun _ => rfl) (fun _ => rfl)
  rw [hasStep_eq_of_some hr, hs]
  rfl

theorem stepCompleted_applyRitualStep_mono (rs : List Ritual) (rid sid : String)
    (rid' sid' : String) (h : stepCompleted rs rid' sid' = true) :
    stepCompleted (applyRitualStep rs rid sid) rid' sid' = true := by
  cases hr : rs.find? (fun x => x.id == rid) with
  | none => simp only [applyRitualStep, hr]; exact h
  | some r =>
    cases hs : r.steps.find? (fun x => x.id == sid) with
    | none => simp only [applyRitualStep, hr, hs]; exact h
    | some st =>
      cases hdep : dependenciesMet rs r st with
      | false => simp only [applyRitualStep, hr, hs, hdep, if_neg]; simpa using h
      | true =>
        simp only [applyRitualStep, hr, hs, hdep, if_true]
        exact stepCompleted_updateSet_mono rid sid
          (fun rr =>
            let newSteps := setStepCompleted sid rr.steps
            { rr with steps := newSteps, completed := newSteps.all (fun s => s.completed) })
          (fun _ => rfl) (fun _ => rfl) rs rid' sid' h

theorem hasStep_applyRitualStep (rs : List Ritual) (rid sid : String)
    (rid' sid' : String) :
    hasStep (applyRitualStep rs rid sid) rid' sid' = hasStep rs rid' sid' := by
  cases hr : rs.find? (fun x => x.id == rid) with
  | none => simp only [applyRitualStep, hr]
  | some r =>
    cases hs : r.steps.find? (fun x => x.id == sid) with
    | none => simp only [applyRitualStep, hr, hs]
    | some st =>
      cases hdep : dependenciesMet rs r st with
      | false => simp only [applyRitualStep, hr, hs, hdep]; simp
      | true =>
        simp only [applyRitualStep, hr, hs, hdep, if_true]
        exact hasStep_updateFirst rid
          (fun rr =>
            let newSteps := setStepCompleted sid rr.steps
            { rr with steps := newSteps,
                      completed := newSteps.all (fun s => s.completed) })
          (fun _ => rfl)
          (fun rr s => isSome_find?_setStepCompleted rr.steps sid s) rs rid' sid'

/-! Per-event lemmas. -/

theorem hasStep_applyEyeDrop (dt : DropType) (rs : List Ritual) (rid sid : String) :
    hasStep (applyEyeDrop dt rs) rid sid = hasStep rs rid sid := by
  cases dt with
  | systane =>
    simp only [applyEyeDrop]
    rw [hasStep_completeAliasStep, hasStep_completeAliasStep, hasStep_completeAliasStep]
  | emoxipin => simp only [applyEyeDrop]; rw [hasStep_completeAliasStep]
  | midramax => simp only [applyEyeDrop]; rw [hasStep_completeAliasStep]

theorem stepCompleted_applyEyeDrop_mono (dt : DropType) (rs : List Ritual)
    (rid sid : String) (h : stepCompleted rs rid sid = true) :
    stepCompleted (applyEyeDrop dt rs) rid sid = true := by
  cases dt with
  | systane =>
    simp only [applyEyeDrop]
    exact stepCompleted_completeAliasStep_mono _ _ _ _ _
      (stepCompleted_completeAliasStep_mono _ _ _ _ _
        (stepCompleted_completeAliasStep_mono _ _ _ _ _ h))
  | emoxipin => exact stepCompleted_completeAliasStep_mono _ _ _ _ _ h
  | midramax => exact stepCompleted_completeAliasStep_mono _ _ _ _ _ h

theorem hasStep_applyEvent (T : Int) (s : FoldState) (e : Event) (rid sid : String) :
    hasStep (applyEvent T s e).rituals rid sid = hasStep s.rituals rid sid := by
  cases e with
  | app_init ts => rfl
  | ritual_step_completed ts rid0 sid0 => exact hasStep_applyRitualStep s.rituals rid0 sid0 rid sid
  | med_taken ts mid dose => rfl
  | eye_drop_applied ts dt => exact hasStep_applyEyeDrop dt s.rituals rid sid
  | watering_done ts pid => rfl
  | glucose_measured ts v => rfl
  | plant_profile_updated ts pid prof => rfl
  | focus_lost ts => rfl
  | backup_created ts path => rfl

theorem stepCompleted_applyEvent_mono (T : Int) (s : FoldState) (e : Event)
    (rid sid : String) (h : stepCompleted s.rituals rid sid = true) :
    stepCompleted (applyEvent T s e).rituals rid sid = true := by
  cases e with
  | app_init ts => exact h
  | ritual_step_completed ts rid0 sid0 =>
    exact stepCompleted_applyRitualStep_mono s.rituals rid0 sid0 rid sid h
  | med_taken ts mid dose => exact h
  | eye_drop_applied ts dt => exact stepCompleted_applyEyeDrop_mono dt s.rituals rid sid h
  | watering_done ts pid => exact h
  | glucose_measured ts v => exact h
  | plant_profile_updated ts pid prof => exact h
  | focus_lost ts => exact h
  | backup_created ts path => exact h

theorem glucose_applyEvent (T : Int) (s : FoldState) (e : Event) :
    (applyEvent T s e).glucose =
      match glucoseReading e with
      | none => s.glucose
      | some (v, ts) => { last := some (v, ts), status := classifyGlucose v } := by
  cases e <;> rfl

/-- Invariant: every plant's stored risk level agrees with `riskOf` of
its stored due time at the pass's instant. -/
def PlantsSync (T : Int) (ps : List Plant) : Prop :=
  ∀ p ∈ ps, p.riskLevel = riskOf p.nextDue T

theorem plantsSync_applyEvent (T : Int) (s : FoldState) (e : Event)
    (h : PlantsSync T s.plants) : PlantsSync T (applyEvent T s e).plants := by
  cases e with
  | app_init ts => exact h
  | ritual_step_completed ts rid sid => exact h
  | med_taken ts mid dose => exact h
  | eye_drop_applied ts dt => exact h
  | watering_done ts pid =>
    intro p hp
    rcases mem_updateFirst hp with hmem | ⟨a, ha, rfl⟩
    · exact h p hmem
    · rfl
  | glucose_measured ts v => exact h
  | plant_profile_updated ts pid prof =>
    intro p hp
    rcases mem_updateFirst hp with hmem | ⟨a, ha, rfl⟩
    · exact h p hmem
    · exact h a ha
  | focus_lost ts => exact h
  | backup_created ts path => exact h

/-- Invariant: a ritual marked `completed` has all steps completed. -/
def RitualsSound (rs : List Ritual) : Prop :=
  ∀ r ∈ rs, r.completed = true → r.steps.all (fun s => s.completed) = true

theorem ritualsSound_completeAliasStep (rid sid : String) (rs : List Ritual)
    (h : RitualsSound rs) : RitualsSound (completeAliasStep rid sid rs) := by
  intro r hr hc
  rcases mem_updateFirst hr with hmem | ⟨a, ha, rfl⟩
  · exact h r hmem hc
  · exact all_setStepCompleted_mono _ _ (h a ha hc)

theorem ritualsSound_applyRitualStep (rs : List Ritual) (rid sid : String)
    (h : RitualsSound rs) : RitualsSound (applyRitualStep rs rid sid) := by
  cases hr : rs.find? (fun x => x.id == rid) with
  | none => simp only [applyRitualStep, hr]; exact h
  | some r =>
    cases hs : r.steps.find? (fun x => x.id == sid) with
    | none => simp only [applyRitualStep, hr, hs]; exact h
    | some st =>
      cases hdep : dependenciesMet rs r st with
      | false => simp only [applyRitualStep, hr, hs, hdep, if_neg]; simpa using h
      | true =>
        simp only [applyRitualStep, hr, hs, hdep, if_true]
        intro rr hrr hc
        rcases mem_updateFirst hrr with hmem | ⟨a, ha, rfl⟩
        · exact h rr hmem hc
        · exact hc

theorem ritualsSound_applyEvent (T : Int) (s : FoldState) (e : Event)
    (h : RitualsSound s.rituals) : RitualsSound (applyEvent T s e).rituals := by
  cases e with
  | app_init ts => exact h
  | ritual_step_completed ts rid sid => exact ritualsSound_applyRitualStep s.rituals rid sid h
  | med_taken ts mid dose => exact h
  | eye_drop_applied ts dt =>
    cases dt with
    | systane =>
      exact ritualsSound_completeAliasStep _ _ _
        (ritualsSound_completeAliasStep _ _ _
          (ritualsSound_completeAliasStep _ _ _ h))
    | emoxipin => exact ritualsSound_completeAliasStep _ _ _ h
    | midramax => exact ritualsSound_completeAliasStep _ _ _ h
  | watering_done ts pid => exact h
  | glucose_measured ts v => exact h
  | plant_profile_updated ts pid prof => exact h
  | focus_lost ts => exact h
  | backup_created ts path => exact h

/-! Fold-level lemmas. -/

theorem foldState_append (L : List Event) (e : Event) (T : Int) :
    foldState (L ++ [e]) T = applyEvent T (foldState L T) e := by
  unfold foldState
  rw [List.foldl_append]
  rfl

theorem hasStep_foldl (T : Int) (rid sid : String) :
    ∀ (L : List Event) (s : FoldState),
      hasStep (L.foldl (applyEvent T) s).rituals rid sid = hasStep s.rituals rid sid := by
  intro L
  induction L with
  | nil => intro s; rfl
  | cons e rest ih =>
    intro s
    rw [List.foldl_cons, ih, hasStep_applyEvent]

theorem hasStep_foldState (L : List Event) (T : Int) (rid sid : String) :
    hasStep (foldState L T).rituals rid sid = hasStep ritualCatalog rid sid :=
  hasStep_foldl T rid sid L (initState T)

theorem stepCompleted_foldl_mono (T : Int) (rid sid : String) :
    ∀ (L : List Event) (s : FoldState),
      stepCompleted s.rituals rid sid = true →
      stepCompleted (L.foldl (applyEvent T) s).rituals rid sid = true := by
  intro L
  induction L with
  | nil => intro s h; exact h
  | cons e rest ih =>
    intro s h
    rw [List.foldl_cons]
    exact ih _ (stepCompleted_applyEvent_mono T s e rid sid h)

theorem ritualsSound_foldl (T : Int) :
    ∀ (L : List Event) (s : FoldState),
      RitualsSound s.rituals → RitualsSound (L.foldl (applyEvent T) s).rituals := by
  intro L
  induction L with
  | nil => intro s h; exact h
  | cons e rest ih =>
    intro s h
    rw [List.foldl_cons]
    exact ih _ (ritualsSound_applyEvent T s e h)

theorem plantsSync_foldl (T : Int) :
    ∀ (L : List Event) (s : FoldState),
      PlantsSync T s.plants → PlantsSync T (L.foldl (applyEvent T) s).plants := by
  intro L
  induction L with
  | nil => intro s h; exact h
  | cons e rest ih =>
    intro s h
    rw [List.foldl_cons]
    exact ih _ (plantsSync_applyEvent T s e h)

theorem glucose_foldl (T : Int) :
    ∀ (L : List Event) (s : FoldState),
      (L.foldl (applyEvent T) s).glucose =
        match lastGlucoseReading L with
        | none => s.glucose
        | some (v, ts) => { last := some (v, ts), status := classifyGlucose v } := by
  intro L
  induction L with
  | nil => intro s; rfl
  | cons e rest ih =>
    intro s
    rw [List.foldl_cons, ih]
    cases hlast : lastGlucoseReading rest with
    | some r =>
      simp only [lastGlucoseReading, hlast]
    | none =>
      simp only [lastGlucoseReading, hlast]
      rw [glucose_applyEvent]

/-! Seed facts. -/

theorem ritualsSound_catalog : RitualsSound ritualCatalog := by
  intro r hr hc
  have hall : ritualCatalog.all (fun r => !r.completed) = true := by decide
  rw [List.all_eq_true] at hall
  have hfalse := hall r hr
  rw [hc] at hfalse
  exact absurd hfalse (by decide)

theorem riskOf_seed (T c : Int) (h : 12 * msPerHour < c * msPerDay) :
    riskOf (T + c * msPerDay) T = .low := by
  simp only [riskOf]
  have hd : T + c * msPerDay - T = c * msPerDay := by ring
  rw [hd, if_pos h]

theorem plantsSync_catalog (T : Int) : PlantsSync T (plantCatalog T) := by
  intro p hp
  simp only [plantCatalog, List.mem_cons, List.not_mem_nil, or_false] at hp
  rcases hp with rfl | rfl | rfl | rfl | rfl | rfl | rfl | rfl | rfl | rfl | rfl <;>
    exact (riskOf_seed T _ (by decide)).symm

theorem riskOf_spec (nd now : Int) :
    riskOf nd now =
      (if now ≥ nd then .high
       else if nd - now ≤ 12 * msPerHour then .medium
       else .low) := by
  simp only [riskOf, msPerHour]
  split_ifs <;> first | rfl | omega

theorem riskOf_high_of_past (nd now : Int) (h : nd < now) : riskOf nd now = .high := by
  rw [riskOf_spec, if_pos (by omega)]

/-! Claim theorems. -/

theorem lastGlucoseReading_eq_none :
    ∀ (L : List Event), L.all (fun e => (glucoseReading e).isNone) = true →
      lastGlucoseReading L = none := by
  intro L
  induction L with
  | nil => intro _; rfl
  | cons e rest ih =>
    intro h
    rw [List.all_cons, Bool.and_eq_true] at h
    obtain ⟨h1, h2⟩ := h
    simp only [lastGlucoseReading, ih h2]
    exact Option.isNone_iff_eq_none.mp h1

/-- C1: Dependency gating — appending a `ritual_step_completed` event
for an existing step of an existing ritual leaves that step's
`completed` flag equal to (previous flag OR `dependenciesMet` at that
point of the fold); when the dependencies are unmet the event is a
no-op on the ritual state (not an error) and the step stays
incomplete. -/
theorem c1_dependency_gating (L : List Event) (T ts : Int) (rid sid : String)
    (c d : Bool)
    (h : stepFlagAndDeps (deriveState L T).rituals rid sid = some (c, d)) :
    stepCompleted
        (deriveState (L ++ [Event.ritual_step_completed ts rid sid]) T).rituals rid sid
      = (c || d)
    ∧ (d = false →
        (deriveState (L ++ [Event.ritual_step_completed ts rid sid]) T).rituals
          = (deriveState L T).rituals) := by
  have hrw : (deriveState L T).rituals = (foldState L T).rituals := rfl
  rw [hrw] at h
  unfold stepFlagAndDeps at h
  cases hfindr : (foldState L T).rituals.find? (fun x => x.id == rid) with
  | none => rw [hfindr] at h; exact absurd h (by simp)
  | some r =>
    rw [hfindr, Option.some_bind] at h
    cases hfinds : r.steps.find? (fun x => x.id == sid) with
    | none => rw [hfinds] at h; exact absurd h (by simp)
    | some st =>
      rw [hfinds, Option.map_some'] at h
      simp only [Option.some.injEq, Prod.mk.injEq] at h
      obtain ⟨hc, hd⟩ := h
      have heq : (deriveState (L ++ [Event.ritual_step_completed ts rid sid]) T).rituals
          = applyRitualStep (foldState L T).rituals rid sid := by
        show (foldState (L ++ [Event.ritual_step_completed ts rid sid]) T).rituals = _
        rw [foldState_append]
        rfl
      constructor
      · rw [heq]
        cases hdep : dependenciesMet (foldState L T).rituals r st with
        | true =>
          rw [hdep] at hd
          rw [← hd, Bool.or_true]
          exact applyRitualStep_of_met _ _ _ r st hfindr hfinds hdep
        | false =>
          rw [hdep] at hd
          rw [← hd, Bool.or_false,
            applyRitualStep_of_unmet _ _ _ r st hfindr hfinds hdep,
            stepCompleted_eq_of_some hfindr, stepDone_eq_of_some hfinds]
          exact hc
      · intro hdf
        have hdep : dependenciesMet (foldState L T).rituals r st = false := hd.trans hdf
        rw [heq, hrw]
        exact applyRitualStep_of_unmet _ _ _ r st hfindr hfinds hdep

/-- C1 witness: in the fresh catalog, step `med_ki_1` of
`ritual_lunch_prep` is incomplete and its dependency `meal_breakfast`
is unmet; a `ritual_step_completed` event for it leaves the step
incomplete and the ritual state unchanged. -/
theorem c1_dependency_gating_witness :
    stepFlagAndDeps (deriveState [] 0).rituals "ritual_lunch_prep" "med_ki_1"
      = some (false, false)
    ∧ stepCompleted
        (deriveState ([] ++ [Event.ritual_step_completed 0 "ritual_lunch_prep" "med_ki_1"]) 0).rituals
        "ritual_lunch_prep" "med_ki_1" = (false || false)
    ∧ (deriveState ([] ++ [Event.ritual_step_completed 0 "ritual_lunch_prep" "med_ki_1"]) 0).rituals
        = (deriveState [] 0).rituals := by
  refine ⟨by decide, ?_, ?_⟩
  · exact (c1_dependency_gating [] 0 0 "ritual_lunch_prep" "med_ki_1" false false (by decide)).1
  · exact (c1_dependency_gating [] 0 0 "ritual_lunch_prep" "med_ki_1" false false (by decide)).2 rfl

/-- C2: Determinism — `deriveState` is a pure function of the event
log and the wall-clock instant, with no other inputs: evaluating it
twice over the same log at the same instant yields identical
`DerivedState` output. -/
theorem c2_determinism (L : List Event) (T : Int) :
    deriveState L T = deriveState L T := rfl

/-- C3: Glucose classification and last-wins — the derived glucose
summary is determined by the most-recent-in-log `glucose_measured`
event alone: `last` is its (value, ts) reading and `status` is low
below 4.2, optimal in [4.2, 6.0] and high above 6.0; earlier
measurements in the log do not affect the result. -/
theorem c3_glucose_last_wins (L : List Event) (T : Int) :
    (deriveState L T).glucose =
      match lastGlucoseReading L with
      | none => { last := none, status := GlucoseStatus.unknown }
      | some (v, ts) =>
        { last := some (v, ts),
          status := if v < (4.2 : ℚ) then .low
                    else if v ≤ (6.0 : ℚ) then .optimal
                    else .high } := by
  have h42 : (4.2 : ℚ) = mkRat 42 10 := by norm_num [mkRat, Rat.normalize]
  have h6 : (6.0 : ℚ) = mkRat 6 1 := by norm_num [mkRat, Rat.normalize]
  have hg : (deriveState L T).glucose = (foldState L T).glucose := rfl
  rw [hg]
  unfold foldState
  rw [glucose_foldl]
  cases hlast : lastGlucoseReading L with
  | none => rfl
  | some r =>
    obtain ⟨v, ts⟩ := r
    simp only [classifyGlucose, h42, h6]

/-- C5: Per-pass risk recomputation — in every derived state each
plant's risk level equals `riskOf` of its due time at the derivation
instant, and in particular every plant whose `nextDue` lies in the
past is at `high` risk, whether or not a `watering_done` event for it
appears in the log. -/
theorem c5_risk_recomputation (L : List Event) (T : Int) :
    ((deriveState L T).plants.all
      (fun p => decide (p.riskLevel = riskOf p.nextDue T))) = true
    ∧ ((deriveState L T).plants.all
      (fun p => !(decide (p.nextDue < T)) || decide (p.riskLevel = RiskLevel.high))) = true := by
  have hp : (deriveState L T).plants = (foldState L T).plants := rfl
  have hsync : PlantsSync T (foldState L T).plants :=
    plantsSync_foldl T L (initState T) (plantsSync_catalog T)
  constructor
  · rw [hp, List.all_eq_true]
    intro p hmem
    simpa using hsync p hmem
  · rw [hp, List.all_eq_true]
    intro p hmem
    by_cases hdue : p.nextDue < T
    · have hhigh : p.riskLevel = RiskLevel.high := by
        rw [hsync p hmem]
        exact riskOf_high_of_past _ _ hdue
      simp [hhigh]
    · simp [hdue]

/-- C6 counterexample: completing the four dependency-free morning
steps via `ritual_step_completed` and the systane step via
`eye_drop_applied` aliasing yields a derived morning ritual whose
steps are all completed while its `completed` flag is still false —
the flag is not recomputed on the aliasing toggle. -/
theorem c6_counterexample :
    ((deriveState [Event.ritual_step_completed 0 "ritual_morning_prep" "estraderm_morning",
                   Event.ritual_step_completed 0 "ritual_morning_prep" "med_fortedertrim",
                   Event.ritual_step_completed 0 "ritual_morning_prep" "med_folic",
                   Event.ritual_step_completed 0 "ritual_morning_prep" "med_mg_1",
                   Event.eye_drop_applied 0 DropType.systane] 0).rituals.find?
        (fun r => r.id == "ritual_morning_prep")).map
      (fun r => (r.steps.all (fun s => s.completed), r.completed)) = some (true, false) := by
  decide

/-- C6 amended: in every derived state a ritual's `completed` flag
implies the AND of its step flags; the converse can fail because the
flag is recomputed only by `ritual_step_completed` events, not by
`eye_drop_applied` aliasing writes. -/
theorem c6_completed_implies_all_steps (L : List Event) (T : Int) :
    ((deriveState L T).rituals.all
      (fun r => !r.completed || r.steps.all (fun s => s.completed))) = true := by
  have hr : (deriveState L T).rituals = (foldState L T).rituals := rfl
  have hsound : RitualsSound (foldState L T).rituals :=
    ritualsSound_foldl T L (initState T) ritualsSound_catalog
  rw [hr, List.all_eq_true]
  intro r hmem
  cases hc : r.completed with
  | false => simp
  | true => simp [hsound r hmem hc]

/-- C9: Monotonic completion — every ritual step completed in the
derivation of a log is still completed in the derivation of the log
with any further event appended. -/
theorem c9_monotonic_completion (L : List Event) (e : Event) (T : Int)
    (rid sid : String)
    (h : stepCompleted (deriveState L T).rituals rid sid = true) :
    stepCompleted (deriveState (L ++ [e]) T).rituals rid sid = true := by
  show stepCompleted (foldState (L ++ [e]) T).rituals rid sid = true
  rw [foldState_append]
  exact stepCompleted_applyEvent_mono T (foldState L T) e rid sid h

/-- C9 witness: the completed `lecture_done` step stays completed
after appending a further event. -/
theorem c9_monotonic_completion_witness :
    stepCompleted (deriveState [Event.ritual_step_completed 0 "lecture" "lecture_done"] 0).rituals
      "lecture" "lecture_done" = true
    ∧ stepCompleted
        (deriveState ([Event.ritual_step_completed 0 "lecture" "lecture_done"]
          ++ [Event.app_init 1]) 0).rituals "lecture" "lecture_done" = true :=
  ⟨by decide, c9_monotonic_completion _ _ 0 _ _ (by decide)⟩

/-- C10: For every log with no `glucose_measured` event the derived
glucose summary has `last` undefined and `status` `unknown`, a fourth
status value distinct from low, optimal and high. -/
theorem c10_glucose_unknown (L : List Event) (T : Int)
    (h : L.all (fun e => (glucoseReading e).isNone) = true) :
    (deriveState L T).glucose.last = none
    ∧ (deriveState L T).glucose.status = GlucoseStatus.unknown
    ∧ GlucoseStatus.unknown ≠ GlucoseStatus.low
    ∧ GlucoseStatus.unknown ≠ GlucoseStatus.optimal
    ∧ GlucoseStatus.unknown ≠ GlucoseStatus.high := by
  have hg : (deriveState L T).glucose = { last := none, status := GlucoseStatus.unknown } := by
    have hfold : (deriveState L T).glucose = (foldState L T).glucose := rfl
    rw [hfold]
    unfold foldState
    rw [glucose_foldl, lastGlucoseReading_eq_none L h]
    rfl
  exact ⟨by rw [hg], by rw [hg], by decide, by decide, by decide⟩

/-- C10 witness: a log of `app_init` and `focus_lost` events has no
glucose measurement and derives an unknown glucose summary. -/
theorem c10_glucose_unknown_witness :
    ([Event.app_init 0, Event.focus_lost 5].all (fun e => (glucoseReading e).isNone) = true)
    ∧ ((deriveState [Event.app_init 0, Event.focus_lost 5] 0).glucose.last = none
       ∧ (deriveState [Event.app_init 0, Event.focus_lost 5] 0).glucose.status = GlucoseStatus.unknown
       ∧ GlucoseStatus.unknown ≠ GlucoseStatus.low
       ∧ GlucoseStatus.unknown ≠ GlucoseStatus.optimal
       ∧ GlucoseStatus.unknown ≠ GlucoseStatus.high) :=
  ⟨by decide, c10_glucose_unknown _ 0 (by decide)⟩

/-- C4 counterexample: water `plant_schefflera_gerda`
(`baseInterval [7,10]`) at ts = 0 and derive at the exact boundary
instant `now = nextDue = 7 days`: the code classifies the risk `high`,
while the claim's chain (`high` only if `now > nextDue`, else `medium`
when `nextDue - now ≤ 12h`) yields `medium`. -/
theorem c4_counterexample :
    ((deriveState [Event.watering_done 0 "plant_schefflera_gerda"] (7 * msPerDay)).plants.find?
        (fun p => p.id == "plant_schefflera_gerda")).map (fun p => (p.nextDue, p.riskLevel))
      = some (7 * msPerDay, RiskLevel.high)
    ∧ claimRisk (7 * msPerDay) (7 * msPerDay) = RiskLevel.medium
    ∧ RiskLevel.high ≠ RiskLevel.medium := by
  decide

/-- C4 amended: a `watering_done` event for a known plant sets
`lastWatered = ts` and `nextDue = ts + minDays` (the minimum bound of
`baseInterval`; maximum bound and multipliers unused) and reclassifies
risk against now as `high` when `now ≥ nextDue` (not only strictly
past due), `medium` when `0 < nextDue - now ≤ 12h`, else `low`. -/
theorem c4_watering_semantics (L : List Event) (T ts m M : Int) (pid : String)
    (h : (((foldState L T).plants.find? (fun q => q.id == pid)).map
      (fun q => q.profile.baseInterval)) = some (m, M)) :
    ((deriveState (L ++ [Event.watering_done ts pid]) T).plants.find?
        (fun q => q.id == pid)).map (fun q => (q.lastWatered, q.nextDue, q.riskLevel))
      = some (some ts, ts + m * msPerDay,
          if T ≥ ts + m * msPerDay then RiskLevel.high
          else if (ts + m * msPerDay) - T ≤ 12 * msPerHour then RiskLevel.medium
          else RiskLevel.low) := by
  rcases Option.map_eq_some'.mp h with ⟨p, hfind, hbase⟩
  have hplants : (deriveState (L ++ [Event.watering_done ts pid]) T).plants
      = applyWatering (foldState L T).plants pid ts T := by
    show (foldState (L ++ [Event.watering_done ts pid]) T).plants = _
    rw [foldState_append]
    rfl
  rw [hplants]
  unfold applyWatering
  rw [find?_updateFirst_same (fun p : Plant => p.id) pid
    (fun p =>
      let nextDue := ts + p.profile.baseInterval.1 * msPerDay
      { p with lastWatered := some ts,
               nextDue := nextDue,
               riskLevel := riskOf nextDue T }) (fun _ => rfl), hfind]
  simp only [Option.map_some']
  rw [show p.profile.baseInterval.1 = m from by rw [hbase]]
  rw [riskOf_spec]

/-- C4 witness: the claim's own example — `baseInterval [7,10]`
watered at 0, derived at `now = nextDue - 11h` — lands in the
`medium` band. -/
theorem c4_watering_semantics_witness :
    ((((foldState [] (7 * msPerDay - 11 * msPerHour)).plants.find?
        (fun q => q.id == "plant_schefflera_gerda")).map
      (fun q => q.profile.baseInterval)) = some (7, 10))
    ∧ ((deriveState ([] ++ [Event.watering_done 0 "plant_schefflera_gerda"])
          (7 * msPerDay - 11 * msPerHour)).plants.find?
        (fun q => q.id == "plant_schefflera_gerda")).map
        (fun q => (q.lastWatered, q.nextDue, q.riskLevel))
      = some (some 0, 0 + 7 * msPerDay,
          if (7 * msPerDay - 11 * msPerHour : Int) ≥ 0 + 7 * msPerDay then RiskLevel.high
          else if (0 + 7 * msPerDay) - (7 * msPerDay - 11 * msPerHour) ≤ 12 * msPerHour then RiskLevel.medium
          else RiskLevel.low)
    ∧ (if (7 * msPerDay - 11 * msPerHour : Int) ≥ 0 + 7 * msPerDay then RiskLevel.high
       else if (0 + 7 * msPerDay) - (7 * msPerDay - 11 * msPerHour) ≤ 12 * msPerHour then RiskLevel.medium
       else RiskLevel.low) = RiskLevel.medium :=
  ⟨by decide,
   c4_watering_semantics [] (7 * msPerDay - 11 * msPerHour) 0 7 10
     "plant_schefflera_gerda" (by decide),
   by decide⟩

/-- C7 counterexample: after `eye_drop_applied{systane}` the morning
systane step is completed, but ritual `w7d4h` still has its
systane-tagged step (named `Капли Систейн`) incomplete — the fan-out
does not reach every ritual step tagged as requiring systane drops. -/
theorem c7_counterexample :
    stepCompleted (deriveState [Event.eye_drop_applied 0 DropType.systane] 0).rituals
      "ritual_morning_prep" "eye_drops_systane" = true
    ∧ ((deriveState [Event.eye_drop_applied 0 DropType.systane] 0).rituals.find?
        (fun r => r.id == "w7d4h")).map
        (fun r => r.steps.map (fun s => (taggedSystane s, s.completed)))
      = some [(true, false), (false, false)] := by
  decide

/-- C7 amended: appending `eye_drop_applied{systane}` completes the
morning ritual's `eye_drops_systane` step and the aliased
`w1d5e_eye_drops` and `w1d6g_eye_drops` steps, with no dedicated
`ritual_step_completed` event; the systane-tagged steps of rituals
`w3d6e`, `w5d6e` and `w7d4h` are left exactly as they were. -/
theorem c7_systane_fanout (L : List Event) (T ts : Int) :
    stepCompleted (deriveState (L ++ [Event.eye_drop_applied ts DropType.systane]) T).rituals
      "ritual_morning_prep" "eye_drops_systane" = true
    ∧ stepCompleted (deriveState (L ++ [Event.eye_drop_applied ts DropType.systane]) T).rituals
      "w1d5e" "w1d5e_eye_drops" = true
    ∧ stepCompleted (deriveState (L ++ [Event.eye_drop_applied ts DropType.systane]) T).rituals
      "w1d6g" "w1d6g_eye_drops" = true
    ∧ stepCompleted (deriveState (L ++ [Event.eye_drop_applied ts DropType.systane]) T).rituals
      "w3d6e" "w3d6e_eye_drops" = stepCompleted (deriveState L T).rituals "w3d6e" "w3d6e_eye_drops"
    ∧ stepCompleted (deriveState (L ++ [Event.eye_drop_applied ts DropType.systane]) T).rituals
      "w5d6e" "w5d6e_eye_drops" = stepCompleted (deriveState L T).rituals "w5d6e" "w5d6e_eye_drops"
    ∧ stepCompleted (deriveState (L ++ [Event.eye_drop_applied ts DropType.systane]) T).rituals
      "w7d4h" "w7d4h_eye_drops" = stepCompleted (deriveState L T).rituals "w7d4h" "w7d4h_eye_drops" := by
  have hderiv : (deriveState (L ++ [Event.eye_drop_applied ts DropType.systane]) T).rituals
      = completeAliasStep "w1d6g" "w1d6g_eye_drops"
          (completeAliasStep "w1d5e" "w1d5e_eye_drops"
            (completeAliasStep "ritual_morning_prep" "eye_drops_systane"
              (foldState L T).rituals)) := by
    show (foldState (L ++ [Event.eye_drop_applied ts DropType.systane]) T).rituals = _
    rw [foldState_append]
    rfl
  have hmorning : hasStep (foldState L T).rituals "ritual_morning_prep" "eye_drops_systane" = true := by
    rw [hasStep_foldState]; decide
  have h15 : hasStep (foldState L T).rituals "w1d5e" "w1d5e_eye_drops" = true := by
    rw [hasStep_foldState]; decide
  have h16 : hasStep (foldState L T).rituals "w1d6g" "w1d6g_eye_drops" = true := by
    rw [hasStep_foldState]; decide
  refine ⟨?_, ?_, ?_, ?_, ?_, ?_⟩
  · rw [hderiv,
      stepCompleted_completeAliasStep_other _ _ _ _ _ (by decide),
      stepCompleted_completeAliasStep_other _ _ _ _ _ (by decide)]
    exact stepCompleted_completeAliasStep_same _ _ _ hmorning
  · rw [hderiv, stepCompleted_completeAliasStep_other _ _ _ _ _ (by decide)]
    refine stepCompleted_completeAliasStep_same _ _ _ ?_
    rw [hasStep_completeAliasStep]
    exact h15
  · rw [hderiv]
    refine stepCompleted_completeAliasStep_same _ _ _ ?_
    rw [hasStep_completeAliasStep, hasStep_completeAliasStep]
    exact h16
  · rw [hderiv,
      stepCompleted_completeAliasStep_other _ _ _ _ _ (by decide),
      stepCompleted_completeAliasStep_other _ _ _ _ _ (by decide),
      stepCompleted_completeAliasStep_other _ _ _ _ _ (by decide)]
    rfl
  · rw [hderiv,
      stepCompleted_completeAliasStep_other _ _ _ _ _ (by decide),
      stepCompleted_completeAliasStep_other _ _ _ _ _ (by decide),
      stepCompleted_completeAliasStep_other _ _ _ _ _ (by decide)]
    rfl
  · rw [hderiv,
      stepCompleted_completeAliasStep_other _ _ _ _ _ (by decide),
      stepCompleted_completeAliasStep_other _ _ _ _ _ (by decide),
      stepCompleted_completeAliasStep_other _ _ _ _ _ (by decide)]
    rfl

theorem computeAnchors_health (rituals : List Ritual) (plants : List Plant)
    (glucose : Glucose) :
    (computeAnchors rituals plants glucose).health =
      match rituals.find? (fun r => r.id == "ritual_morning_prep") with
      | some r =>
        if !r.completed then
          match r.steps.find? (fun st => !st.completed) with
          | some st => some st.id
          | none =>
            if glucose.last.isSome && decide (glucose.status = .low) then
              some "rest_teabreak" else none
        else
          if glucose.last.isSome && decide (glucose.status = .low) then
            some "rest_teabreak" else none
      | none =>
        if glucose.last.isSome && decide (glucose.status = .low) then
          some "rest_teabreak" else none := rfl

/-- C8 counterexample: on the log `[glucose_measured 3]` the derived
glucose status is `low`, yet the health anchor is the first incomplete
morning step, not the glucose anchor `rest_teabreak`. -/
theorem c8_counterexample :
    (deriveState [Event.glucose_measured 0 (mkRat 3 1)] 0).glucose.status = GlucoseStatus.low
    ∧ (deriveState [Event.glucose_measured 0 (mkRat 3 1)] 0).anchors.health
        = some "eye_drops_systane"
    ∧ some "eye_drops_systane" ≠ some "rest_teabreak" := by
  decide

/-- C8 amended: the precedence is the reverse of the claim — whenever
the morning ritual has an incomplete step, its first incomplete step
is the health anchor even when glucose status is `low`; the glucose
anchor `rest_teabreak` surfaces only when every morning step is
completed (and a low reading exists). -/
theorem c8_health_anchor (L : List Event) (T : Int) (sid : String) :
    (firstPendingMorning L T = some (some sid) →
      (deriveState L T).anchors.health = some sid)
    ∧ (firstPendingMorning L T = some none →
      (deriveState L T).glucose.last.isSome = true →
      (deriveState L T).glucose.status = GlucoseStatus.low →
      (deriveState L T).anchors.health = some "rest_teabreak") := by
  have hanch : (deriveState L T).anchors
      = computeAnchors (foldState L T).rituals (foldState L T).plants (foldState L T).glucose := rfl
  have hglu : (deriveState L T).glucose = (foldState L T).glucose := rfl
  have hritu : (deriveState L T).rituals = (foldState L T).rituals := rfl
  constructor
  · intro hpend
    unfold firstPendingMorning at hpend
    rw [hritu] at hpend
    rcases Option.map_eq_some'.mp hpend with ⟨r, hfr, hmap⟩
    rcases Option.map_eq_some'.mp hmap with ⟨st, hfs, hstid⟩
    have hsound := ritualsSound_foldl T L (initState T) ritualsSound_catalog
    have hrc : r.completed = false := by
      cases hrc : r.completed with
      | false => rfl
      | true =>
        have hall := hsound r (List.mem_of_find?_eq_some hfr) hrc
        rw [List.all_eq_true] at hall
        have hstc := hall st (List.mem_of_find?_eq_some hfs)
        have hnc := List.find?_some hfs
        simp only [hstc] at hnc
        exact absurd hnc (by decide)
    rw [hanch, computeAnchors_health]
    simp only [hfr, hrc, Bool.not_false, if_true, hfs]
    rw [hstid]
  · intro hpend hlast hlow
    unfold firstPendingMorning at hpend
    rw [hritu] at hpend
    rcases Option.map_eq_some'.mp hpend with ⟨r, hfr, hmap⟩
    have hfs : r.steps.find? (fun st => !st.completed) = none := by
      cases hq : r.steps.find? (fun st => !st.completed) with
      | none => rfl
      | some st => rw [hq] at hmap; exact absurd hmap (by simp)
    rw [hglu] at hlast hlow
    have hcond : ((foldState L T).glucose.last.isSome
        && decide ((foldState L T).glucose.status = GlucoseStatus.low)) = true := by
      rw [hlast, hlow]
      decide
    rw [hanch, computeAnchors_health]
    simp only [hfr, hfs]
    cases hrc : r.completed <;> simp [hcond]

/-- C8 witness: a low glucose reading with the morning ritual pending
surfaces the first incomplete morning step, and with the morning
ritual fully completed surfaces `rest_teabreak`. -/
theorem c8_health_anchor_witness :
    (firstPendingMorning [Event.glucose_measured 0 (mkRat 3 1)] 0 = some (some "eye_drops_systane")
     ∧ (deriveState [Event.glucose_measured 0 (mkRat 3 1)] 0).anchors.health
         = some "eye_drops_systane")
    ∧ (firstPendingMorning
         [Event.ritual_step_completed 0 "ritual_morning_prep" "eye_drops_systane",
          Event.ritual_step_completed 0 "ritual_morning_prep" "estraderm_morning",
          Event.ritual_step_completed 0 "ritual_morning_prep" "med_fortedertrim",
          Event.ritual_step_completed 0 "ritual_morning_prep" "med_folic",
          Event.ritual_step_completed 0 "ritual_morning_prep" "med_mg_1",
          Event.glucose_measured 0 (mkRat 3 1)] 0 = some none
       ∧ (deriveState
            [Event.ritual_step_completed 0 "ritual_morning_prep" "eye_drops_systane",
             Event.ritual_step_completed 0 "ritual_morning_prep" "estraderm_morning",
             Event.ritual_step_completed 0 "ritual_morning_prep" "med_fortedertrim",
             Event.ritual_step_completed 0 "ritual_morning_prep" "med_folic",
             Event.ritual_step_completed 0 "ritual_morning_prep" "med_mg_1",
             Event.glucose_measured 0 (mkRat 3 1)] 0).anchors.health = some "rest_teabreak") :=
  ⟨⟨by decide,
    (c8_health_anchor [Event.glucose_measured 0 (mkRat 3 1)] 0 "eye_drops_systane").1 (by decide)⟩,
   ⟨by decide,
    (c8_health_anchor
      [Event.ritual_step_completed 0 "ritual_morning_prep" "eye_drops_systane",
       Event.ritual_step_completed 0 "ritual_morning_prep" "estraderm_morning",
       Event.ritual_step_completed 0 "ritual_morning_prep" "med_fortedertrim",
       Event.ritual_step_completed 0 "ritual_morning_prep" "med_folic",
       Event.ritual_step_completed 0 "ritual_morning_prep" "med_mg_1",
       Event.glucose_measured 0 (mkRat 3 1)] 0 "x").2 (by decide) (by decide) (by decide)⟩⟩

end Sonechka
